import Mathlib

/-!
Verification of the InsightBridge v4.5 token-validation gateway
(`app/main.py` and `app/core/*`) against its natural-language
specification.  The Python source is shallowly embedded: pure functions
become Lean functions, each stateful component (rate limiter, replay
cache, metrics) becomes explicit state passing, Python floats used as
wall-clock times become `ℚ`, Python ints become `Int`/`Nat`, fallible
calls become `Except`.  Opaque effects (the cryptographic signature
check performed by the `jwt` library, the awaited score backend, raised
exceptions) are inputs to the embedded pipeline.
-/

/-- `Decision` enum from `app/models.py`. -/
inductive Decision where
  | ALLOW
  | DENY
  | MONITOR
deriving DecidableEq, Repr

/-- `DenyReason` enum from `app/models.py`. -/
inductive DenyReason where
  | EXPIRED_TOKEN
  | NOT_YET_VALID
  | REPLAY_DETECTED
  | RATE_LIMIT_EXCEEDED
  | INVALID_SIGNATURE
  | LOW_SCORE
  | MALFORMED_TOKEN
  | INTERNAL_ERROR
deriving DecidableEq, Repr

/-- A decoded JWT payload dictionary, as produced by `jwt.decode` in
`app/core/jwt_validator.py`.  The claims the code reads are modelled as
optional fields (`none` = key absent from the dict).  `scoreClaim` and
`extra` stand for arbitrary further claims an issuer may place in the
payload (including one literally named `score`); no embedded code reads
them, which is what claim C2 is about. -/
structure Payload where
  sub : Option String
  jti : Option String
  exp : Option Int
  nbf : Option Int
  scoreClaim : Option Int
  extra : List (String × String)
deriving DecidableEq, Repr

/-- Result of `JWTValidator.validate_token`: either a dict carrying an
`"error"` key (modelled by the error string the code stores there) or
the verified payload. -/
inductive VOut where
  | err (e : String)
  | ok (p : Payload)
deriving DecidableEq, Repr

/-- Outcome of the opaque `jwt.decode` library call (signature
verification): success with a payload, or one of the exception classes
the code catches (`ExpiredSignatureError`, `InvalidSignatureError`,
`DecodeError`, any other `Exception`). -/
inductive SigOutcome where
  | ok (p : Payload)
  | expiredSig
  | invalidSig
  | decodeErr
  | otherExc
deriving DecidableEq, Repr

namespace JWTValidator

/-- `JWTValidator.validate_token` from `app/core/jwt_validator.py`,
after the opaque `jwt.decode` call is abstracted into the `sig` input.
`tokenEmpty` models the `if not token` guard, `now` models
`int(time.time())`, `clock_drift` the configured
`jwt_clock_drift_seconds`. -/
def validate_token (clock_drift : Int) (tokenEmpty : Bool)
    (sig : SigOutcome) (now : Int) : VOut :=
  if tokenEmpty then .err "malformed"
  else
    match sig with
    | .expiredSig => .err "expired"
    | .invalidSig => .err "invalid_signature"
    | .decodeErr => .err "malformed"
    | .otherExc => .err "malformed"
    | .ok p =>
      match p.exp with
      | none => .err "malformed"
      | some exp =>
        if now > exp + clock_drift then .err "expired"
        else
          if h : p.nbf.isSome then
            if now < p.nbf.get h - clock_drift then .err "not_yet_valid"
            else
              if p.jti = none ∨ p.sub = none then .err "malformed"
              else .ok p
          else
            if p.jti = none ∨ p.sub = none then .err "malformed"
            else .ok p

end JWTValidator

namespace DecisionEngine

/-- `DecisionEngine.ALLOW_THRESHOLD` from `app/core/decision_engine.py`. -/
def ALLOW_THRESHOLD : Int := 70

/-- `DecisionEngine.MONITOR_THRESHOLD` from `app/core/decision_engine.py`. -/
def MONITOR_THRESHOLD : Int := 50

/-- `DecisionEngine.make_decision` from `app/core/decision_engine.py`.
The injected score provider is modelled as the function `get_score`
(whose `Except.error` case models the awaited call raising), applied to
`user_id` exactly as the code applies `self.score_provider.get_score`. -/
def make_decision (get_score : Option String → Except String Int)
    (user_id : Option String) : Except String (Decision × Int) :=
  match get_score user_id with
  | .error e => .error e
  | .ok score =>
    if score ≥ ALLOW_THRESHOLD then .ok (Decision.ALLOW, score)
    else if score ≥ MONITOR_THRESHOLD then .ok (Decision.MONITOR, score)
    else .ok (Decision.DENY, score)

end DecisionEngine

/-- The repository injected into `TrustedScoreProvider`
(`app/persistence/repositories.py` interface).  Each method may raise
(`Except.error`) and may find no record (`none`). -/
structure ScoreRepo where
  get_score : String → Except String (Option Int)
  get_cached_score : String → Except String (Option Int)
  cache_score : String → Int → Except String Unit

namespace TrustedScoreProvider

/-- `TrustedScoreProvider._get_from_database` from
`app/core/score_provider.py`: `score if score is not None else 0`. -/
def get_from_database (repo : ScoreRepo) (user_id : String) :
    Except String Int :=
  match repo.get_score user_id with
  | .error e => .error e
  | .ok s => .ok (s.getD 0)

/-- `TrustedScoreProvider._get_from_redis` from
`app/core/score_provider.py`: cache first, then database with a cache
write (whose failure propagates to the caller), else 0. -/
def get_from_redis (repo : ScoreRepo) (user_id : String) :
    Except String Int :=
  match repo.get_cached_score user_id with
  | .error e => .error e
  | .ok (some c) => .ok c
  | .ok none =>
    match repo.get_score user_id with
    | .error e => .error e
    | .ok (some v) =>
      match repo.cache_score user_id v with
      | .error e => .error e
      | .ok _ => .ok v
    | .ok none => .ok 0

/-- `TrustedScoreProvider._get_from_api` from
`app/core/score_provider.py`.  `api` models the HTTP fetch:
`Except.error` is any request failure (caught by the inner
`try`/`except`, yielding 0), `ok d` is the parsed JSON body with `d`
the optional `"score"` field (`data.get("score", 0)`). -/
def get_from_api (api : String → Except String (Option Int))
    (user_id : String) : Int :=
  match api user_id with
  | .error _ => 0
  | .ok d => d.getD 0

/-- `TrustedScoreProvider.get_score` from `app/core/score_provider.py`:
dispatch on `provider_type`, unknown backend yields 0, and the outer
`try`/`except` collapses any raised error to 0. -/
def get_score (provider_type : String) (repo : ScoreRepo)
    (api : String → Except String (Option Int)) (user_id : String) : Int :=
  let r : Except String Int :=
    if provider_type = "database" then get_from_database repo user_id
    else if provider_type = "redis" then get_from_redis repo user_id
    else if provider_type = "external_api" then .ok (get_from_api api user_id)
    else .ok 0
  match r with
  | .error _ => 0
  | .ok v => v

end TrustedScoreProvider

namespace RateLimiter

/-- `RateLimiter.is_allowed` from `app/core/rate_limiter.py` on the
single `"global"` bucket.  The constructor hardcodes
`self.max_tokens = 120`; `rate` is `requests_per_minute / 60.0`;
`now` is the `time.time()` float, modelled as `ℚ`.  `st = none` is the
`key not in self.state` case; otherwise `st = some (tokens, last_update)`.
Returns the boolean result together with the updated stored state. -/
def is_allowed (rate : ℚ) (st : Option (ℚ × ℚ)) (now : ℚ) :
    Bool × Option (ℚ × ℚ) :=
  match st with
  | none => (true, some (120 - 1, now))
  | some (tokens, last_update) =>
    let tokens := min 120 (tokens + (now - last_update) * rate)
    if tokens < 1 then (false, some (tokens, now))
    else (true, some (tokens - 1, now))

/-- Bucket states reachable by some sequence of `is_allowed` calls from
a fresh limiter whose call times never regress (each call's `now` is at
least the stored `last_update`). -/
inductive Reach (rate : ℚ) : Option (ℚ × ℚ) → Prop where
  | init : Reach rate none
  | step (st : Option (ℚ × ℚ)) (now : ℚ) : Reach rate st →
      (∀ tok lu, st = some (tok, lu) → lu ≤ now) →
      Reach rate (is_allowed rate st now).2

end RateLimiter

/-- State of `ReplayCache` from `app/core/replay_cache.py`:
`seen` models the Python set `self.seen` (kept duplicate-free by the
insert), `ts` models the dict `self.jti_timestamps`. -/
structure ReplayState where
  seen : List String
  ts : List (String × ℚ)
deriving DecidableEq, Repr

namespace ReplayCache

/-- `ReplayCache._cleanup_expired` from `app/core/replay_cache.py`:
collect the jtis whose recorded expiration is `< now`, discard them
from `seen` and pop them from the timestamp dict. -/
def cleanup (rs : ReplayState) (now : ℚ) : ReplayState :=
  let expired := (rs.ts.filter (fun q => decide (q.2 < now))).map (fun q => q.1)
  { seen := rs.seen.filter (fun j => !(decide (j ∈ expired)))
    ts := rs.ts.filter (fun q => !(decide (q.2 < now))) }

/-- `ReplayCache.is_replayed` from `app/core/replay_cache.py`.  `jti` is
`decoded.get("jti")`, so it may be absent; `if not jti` is true for both
`None` and `""`.  The periodic cleanup (triggered when
`len(self.seen) % 100 == 0`) mutates the cache, so the updated state is
returned alongside the membership answer. -/
def is_replayed (rs : ReplayState) (now : ℚ) (jti : Option String) :
    Bool × ReplayState :=
  match jti with
  | none => (true, rs)
  | some j =>
    if j = "" then (true, rs)
    else
      let rs' := if rs.seen.length % 100 = 0 then cleanup rs now else rs
      (decide (j ∈ rs'.seen), rs')

/-- Insert/overwrite one key of the timestamp dict
(`self.jti_timestamps[jti] = exp`). -/
def tsInsert (ts : List (String × ℚ)) (j : String) (e : ℚ) :
    List (String × ℚ) :=
  (j, e) :: ts.filter (fun q => !(decide (q.1 = j)))

/-- `ReplayCache.record` from `app/core/replay_cache.py`.  `exp` has
default `None`; `if exp:` is falsy for `None` and for `0`. -/
def record (rs : ReplayState) (jti : Option String) (exp : Option ℚ) :
    ReplayState :=
  match jti with
  | none => rs
  | some j =>
    if j = "" then rs
    else
      { seen := if j ∈ rs.seen then rs.seen else j :: rs.seen
        ts := match exp with
              | none => rs.ts
              | some e => if e = 0 then rs.ts else tsInsert rs.ts j e }

end ReplayCache

/-- The process-global `metrics` dict of `app/main.py` (the counters the
pipeline touches; `start_time`, `total_latency_ms` and `active_users`
are never read by `validate_token` and are omitted). -/
structure Metrics where
  total_requests : Nat
  allow_count : Nat
  deny_count : Nat
  monitor_count : Nat
  rate_limit_hits : Nat
  replay_detections : Nat
deriving DecidableEq, Repr

/-- The mutable process state `validate_token` reads and writes: the
metrics dict, the rate limiter bucket and the replay cache. -/
structure St where
  metrics : Metrics
  rate : Option (ℚ × ℚ)
  replay : ReplayState
deriving DecidableEq, Repr

/-- Fresh process state built by the startup code of `app/main.py`:
all counters 0, empty rate-limiter dict, empty replay cache. -/
def St0 : St :=
  { metrics := ⟨0, 0, 0, 0, 0, 0⟩
    rate := none
    replay := ⟨[], []⟩ }

/-- Per-process configuration of the pipeline: the rate limiter's refill
rate and the score backend as seen from the orchestrator's
`await decision_engine.make_decision(user_id)` (its `Except.error` case
models the awaited call raising). -/
structure Config where
  rate : ℚ
  getScore : Option String → Except String Int

/-- The per-request inputs of one `/validate` call: the `time.time()`
value and the outcome of the `jwt_validator.validate_token(request.token)`
call, whose own `Except.error` case models that call raising. -/
structure ReqIn where
  now : ℚ
  verify : Except String VOut

/-- The fields of `ValidateResponse` the pipeline computes
(`request_id` and `timestamp` are opaque pass-throughs and omitted). -/
structure Response where
  decision : Decision
  reason : Option DenyReason
  score : Option Int
deriving DecidableEq, Repr

/-- `metrics["total_requests"] += 1` on the state. -/
def St.bumpTotal (st : St) : St :=
  { st with metrics := { st.metrics with
      total_requests := st.metrics.total_requests + 1 } }

/-- `metrics["deny_count"] += 1` on the state. -/
def St.bumpDeny (st : St) : St :=
  { st with metrics := { st.metrics with
      deny_count := st.metrics.deny_count + 1 } }

/-- The `reason_map` dict of `app/main.py` step 2, including its
`.get(..., DenyReason.INTERNAL_ERROR)` default. -/
def reasonMap (e : String) : DenyReason :=
  if e = "expired" then .EXPIRED_TOKEN
  else if e = "not_yet_valid" then .NOT_YET_VALID
  else if e = "invalid_signature" then .INVALID_SIGNATURE
  else if e = "malformed" then .MALFORMED_TOKEN
  else .INTERNAL_ERROR

/-- The body of the `try:` block of `validate_token` in `app/main.py`
(steps 1–6 after the `total_requests` increment).  A raise anywhere
aborts with the exception and the state as mutated so far. -/
def validateBody (cfg : Config) (st : St) (r : ReqIn) :
    Except (String × St) (Response × St) :=
  let rl := RateLimiter.is_allowed cfg.rate st.rate r.now
  let st1 : St := { st with rate := rl.2 }
  if !rl.1 then
    .ok (⟨Decision.DENY, some DenyReason.RATE_LIMIT_EXCEEDED, none⟩, st1.bumpDeny)
  else
    match r.verify with
    | .error e => .error (e, st1)
    | .ok (.err s) =>
      .ok (⟨Decision.DENY, some (reasonMap s), none⟩, st1.bumpDeny)
    | .ok (.ok p) =>
      let rep := ReplayCache.is_replayed st1.replay r.now p.jti
      let st2 : St := { st1 with replay := rep.2 }
      if rep.1 then
        .ok (⟨Decision.DENY, some DenyReason.REPLAY_DETECTED, none⟩, st2.bumpDeny)
      else
        let st3 : St :=
          { st2 with replay := ReplayCache.record st2.replay p.jti none }
        match DecisionEngine.make_decision cfg.getScore p.sub with
        | .error e => .error (e, st3)
        | .ok (decision, score) =>
          let st4 : St :=
            { st3 with metrics :=
                if decision = Decision.ALLOW then
                  { st3.metrics with allow_count := st3.metrics.allow_count + 1 }
                else if decision = Decision.DENY then
                  { st3.metrics with deny_count := st3.metrics.deny_count + 1 }
                else
                  { st3.metrics with monitor_count := st3.metrics.monitor_count + 1 } }
          .ok (⟨decision,
                if decision = Decision.DENY then some DenyReason.LOW_SCORE else none,
                some score⟩, st4)

/-- `validate_token` from `app/main.py`: increment `total_requests`,
run the body, and collapse any raise to DENY/INTERNAL_ERROR with a
`deny_count` increment (the `except Exception` handler).  Total by
construction: every call returns a `Response`. -/
def validate (cfg : Config) (st : St) (r : ReqIn) : Response × St :=
  match validateBody cfg st.bumpTotal r with
  | .ok out => out
  | .error (_, stE) =>
    (⟨Decision.DENY, some DenyReason.INTERNAL_ERROR, none⟩, stE.bumpDeny)

/-- Process states reachable by the pipeline: the startup state and
anything a `/validate` call produces from a reachable state. -/
inductive PReach (cfg : Config) : St → Prop where
  | init : PReach cfg St0
  | step (st : St) (r : ReqIn) : PReach cfg st → PReach cfg (validate cfg st r).2

/-- Concrete pipeline configuration used by the replay witness run
(refill rate 100 rpm / 60, backend score 95). -/
def cfgW4 : Config := ⟨5/3, fun _ => Except.ok 95⟩

/-- Concrete verified payload used by the replay witness run. -/
def pW4 : Payload := ⟨some "alice", some "j1", some 1000, none, none, []⟩

/-- First presentation of `pW4`. -/
def rW4a : ReqIn := ⟨0, .ok (.ok pW4)⟩

/-- Second presentation of `pW4`, 7 seconds later. -/
def rW4b : ReqIn := ⟨7, .ok (.ok pW4)⟩

/-- Concrete pipeline configuration for the persistence witness run
(backend score 5, so the first request itself is denied on score). -/
def cfgW10 : Config := ⟨2, fun _ => Except.ok 5⟩

/-- Concrete verified payload used by the persistence witness run. -/
def pW10 : Payload := ⟨some "bob", some "j9", some 500, none, none, []⟩

/-- First presentation of `pW10`. -/
def rW10a : ReqIn := ⟨0, .ok (.ok pW10)⟩

/-- A later request whose validator call raises. -/
def rW10b : ReqIn := ⟨3, .error "backend crashed"⟩

/-- Inverting a successful `make_decision`: the pair's score component is
exactly what the score provider returned. -/
lemma make_decision_ok_inv (g : Option String → Except String Int)
    (uid : Option String) (d : Decision) (s : Int) :
    DecisionEngine.make_decision g uid = .ok (d, s) → g uid = .ok s := by
  intro h
  unfold DecisionEngine.make_decision at h
  cases hg : g uid with
  | error e => rw [hg] at h; simp at h
  | ok v =>
    rw [hg] at h
    simp only [Except.ok.injEq] at h ⊢
    split_ifs at h <;>
      (simp only [Except.ok.injEq, Prod.mk.injEq] at h; exact h.2)

/-- `record` with `exp = None` leaves the timestamp dict untouched. -/
lemma record_ts_none (rs : ReplayState) (jti : Option String) :
    (ReplayCache.record rs jti none).ts = rs.ts := by
  cases jti with
  | none => rfl
  | some j => simp only [ReplayCache.record]; split_ifs <;> rfl

/-- Cleanup of a cache with an empty timestamp dict is the identity. -/
lemma cleanup_ts_nil (rs : ReplayState) (now : ℚ) (h : rs.ts = []) :
    ReplayCache.cleanup rs now = rs := by
  obtain ⟨seen, ts⟩ := rs
  simp only at h
  subst h
  simp [ReplayCache.cleanup]

/-- Cleanup only discards jtis that appear in the timestamp dict: an
unstamped member of `seen` survives every cleanup. -/
lemma cleanup_keeps_unstamped (rs : ReplayState) (now : ℚ) (j : String)
    (hmem : j ∈ rs.seen) (hts : ∀ e, (j, e) ∉ rs.ts) :
    j ∈ (ReplayCache.cleanup rs now).seen := by
  unfold ReplayCache.cleanup
  rw [List.mem_filter]
  refine ⟨hmem, ?_⟩
  simp only [Bool.not_eq_eq_eq_not, Bool.not_true, decide_eq_false_iff_not]
  intro hx
  rw [List.mem_map] at hx
  obtain ⟨⟨j', e⟩, hin, hj⟩ := hx
  rw [List.mem_filter] at hin
  simp only at hj
  subst hj
  exact hts e hin.1

/-- With an empty timestamp dict, `is_replayed` does not change the
cache state (its periodic cleanup is the identity). -/
lemma is_replayed_state_nil (rs : ReplayState) (now : ℚ) (jti : Option String)
    (h : rs.ts = []) : (ReplayCache.is_replayed rs now jti).2 = rs := by
  cases jti with
  | none => rfl
  | some j =>
    simp only [ReplayCache.is_replayed]
    split_ifs <;> simp [cleanup_ts_nil rs now h]

/-- With an empty timestamp dict, `is_replayed` on a non-empty jti is
exactly the membership test on `seen`. -/
lemma is_replayed_fst_nil (rs : ReplayState) (now : ℚ) (j : String)
    (h : rs.ts = []) (hj : j ≠ "") :
    (ReplayCache.is_replayed rs now (some j)).1 = decide (j ∈ rs.seen) := by
  simp only [ReplayCache.is_replayed]
  split_ifs with h1 h2 <;> simp_all [cleanup_ts_nil rs now h]

/-- A non-replay answer forces the jti to be present and non-empty. -/
lemma is_replayed_false_inv (rs : ReplayState) (now : ℚ) (jti : Option String)
    (h : (ReplayCache.is_replayed rs now jti).1 = false) :
    ∃ j, jti = some j ∧ j ≠ "" := by
  cases jti with
  | none => simp [ReplayCache.is_replayed] at h
  | some j =>
    refine ⟨j, rfl, ?_⟩
    intro hje
    subst hje
    simp [ReplayCache.is_replayed] at h

/-- `record` never removes anything from `seen`. -/
lemma record_seen_mono (rs : ReplayState) (jti : Option String)
    (exp : Option ℚ) (j : String) (h : j ∈ rs.seen) :
    j ∈ (ReplayCache.record rs jti exp).seen := by
  cases jti with
  | none => exact h
  | some j' =>
    simp only [ReplayCache.record]
    split_ifs with h1 h2
    · exact h
    · exact h
    · exact List.mem_cons_of_mem _ h

/-- Membership in `seen` after recording a non-empty jti. -/
lemma record_seen_iff (rs : ReplayState) (j0 j : String) (h0 : j0 ≠ "") :
    (j ∈ (ReplayCache.record rs (some j0) none).seen ↔
      (j ∈ rs.seen ∨ j0 = j)) := by
  simp only [ReplayCache.record, h0, if_false]
  split_ifs with hmem0
  · constructor
    · exact fun h => Or.inl h
    · rintro (h | rfl)
      · exact h
      · exact hmem0
  · rw [List.mem_cons]
    constructor
    · rintro (rfl | h)
      · exact Or.inr rfl
      · exact Or.inl h
    · rintro (h | rfl)
      · exact Or.inr h
      · exact Or.inl rfl

/-- Evaluation of `validate` when the rate limiter refuses. -/
lemma validate_rl_false (cfg : Config) (st : St) (r : ReqIn)
    (hrl : (RateLimiter.is_allowed cfg.rate st.rate r.now).1 = false) :
    validate cfg st r =
      (⟨Decision.DENY, some DenyReason.RATE_LIMIT_EXCEEDED, none⟩,
       St.bumpDeny ⟨st.bumpTotal.metrics,
         (RateLimiter.is_allowed cfg.rate st.rate r.now).2, st.replay⟩) := by
  unfold validate validateBody
  simp [St.bumpTotal, hrl]

/-- Evaluation of `validate` when the validator call itself raises. -/
lemma validate_verify_error (cfg : Config) (st : St) (r : ReqIn) (e : String)
    (hrl : (RateLimiter.is_allowed cfg.rate st.rate r.now).1 = true)
    (hv : r.verify = .error e) :
    validate cfg st r =
      (⟨Decision.DENY, some DenyReason.INTERNAL_ERROR, none⟩,
       St.bumpDeny ⟨st.bumpTotal.metrics,
         (RateLimiter.is_allowed cfg.rate st.rate r.now).2, st.replay⟩) := by
  unfold validate validateBody
  simp [St.bumpTotal, hrl, hv]

/-- Evaluation of `validate` when the validator returns an error dict. -/
lemma validate_verify_err (cfg : Config) (st : St) (r : ReqIn) (s : String)
    (hrl : (RateLimiter.is_allowed cfg.rate st.rate r.now).1 = true)
    (hv : r.verify = .ok (.err s)) :
    validate cfg st r =
      (⟨Decision.DENY, some (reasonMap s), none⟩,
       St.bumpDeny ⟨st.bumpTotal.metrics,
         (RateLimiter.is_allowed cfg.rate st.rate r.now).2, st.replay⟩) := by
  unfold validate validateBody
  simp [St.bumpTotal, hrl, hv]

/-- Evaluation of `validate` when the replay check fires. -/
lemma validate_replay_true (cfg : Config) (st : St) (r : ReqIn) (p : Payload)
    (hrl : (RateLimiter.is_allowed cfg.rate st.rate r.now).1 = true)
    (hv : r.verify = .ok (.ok p))
    (hrep : (ReplayCache.is_replayed st.replay r.now p.jti).1 = true) :
    validate cfg st r =
      (⟨Decision.DENY, some DenyReason.REPLAY_DETECTED, none⟩,
       St.bumpDeny ⟨st.bumpTotal.metrics,
         (RateLimiter.is_allowed cfg.rate st.rate r.now).2,
         (ReplayCache.is_replayed st.replay r.now p.jti).2⟩) := by
  unfold validate validateBody
  simp [St.bumpTotal, hrl, hv, hrep]

/-- Evaluation of `validate` when the score fetch raises: the jti has
already been recorded by then. -/
lemma validate_score_error (cfg : Config) (st : St) (r : ReqIn) (p : Payload)
    (e : String)
    (hrl : (RateLimiter.is_allowed cfg.rate st.rate r.now).1 = true)
    (hv : r.verify = .ok (.ok p))
    (hrep : (ReplayCache.is_replayed st.replay r.now p.jti).1 = false)
    (hmd : DecisionEngine.make_decision cfg.getScore p.sub = .error e) :
    validate cfg st r =
      (⟨Decision.DENY, some DenyReason.INTERNAL_ERROR, none⟩,
       St.bumpDeny ⟨st.bumpTotal.metrics,
         (RateLimiter.is_allowed cfg.rate st.rate r.now).2,
         ReplayCache.record (ReplayCache.is_replayed st.replay r.now p.jti).2
           p.jti none⟩) := by
  unfold validate validateBody
  simp [St.bumpTotal, hrl, hv, hrep, hmd]

/-- Evaluation of `validate` on the full success path. -/
lemma validate_success (cfg : Config) (st : St) (r : ReqIn) (p : Payload)
    (d : Decision) (sc : Int)
    (hrl : (RateLimiter.is_allowed cfg.rate st.rate r.now).1 = true)
    (hv : r.verify = .ok (.ok p))
    (hrep : (ReplayCache.is_replayed st.replay r.now p.jti).1 = false)
    (hmd : DecisionEngine.make_decision cfg.getScore p.sub = .ok (d, sc)) :
    validate cfg st r =
      (⟨d, if d = Decision.DENY then some DenyReason.LOW_SCORE else none, some sc⟩,
       ⟨(if d = Decision.ALLOW then
           { st.bumpTotal.metrics with
               allow_count := st.bumpTotal.metrics.allow_count + 1 }
         else if d = Decision.DENY then
           { st.bumpTotal.metrics with
               deny_count := st.bumpTotal.metrics.deny_count + 1 }
         else
           { st.bumpTotal.metrics with
               monitor_count := st.bumpTotal.metrics.monitor_count + 1 }),
        (RateLimiter.is_allowed cfg.rate st.rate r.now).2,
        ReplayCache.record (ReplayCache.is_replayed st.replay r.now p.jti).2
          p.jti none⟩) := by
  unfold validate validateBody
  simp [St.bumpTotal, hrl, hv, hrep, hmd]

/-- Any response carrying a score got it from the score backend applied
to the verified payload's `sub` claim. -/
lemma validate_score_origin (cfg : Config) (st : St) (r : ReqIn) (p : Payload)
    (s : Int) (hv : r.verify = .ok (.ok p))
    (hs : (validate cfg st r).1.score = some s) :
    cfg.getScore p.sub = .ok s := by
  cases hrl : (RateLimiter.is_allowed cfg.rate st.rate r.now).1 with
  | false => rw [validate_rl_false cfg st r hrl] at hs; simp at hs
  | true =>
    cases hrep : (ReplayCache.is_replayed st.replay r.now p.jti).1 with
    | true => rw [validate_replay_true cfg st r p hrl hv hrep] at hs; simp at hs
    | false =>
      cases hmd : DecisionEngine.make_decision cfg.getScore p.sub with
      | error e =>
        rw [validate_score_error cfg st r p e hrl hv hrep hmd] at hs
        simp at hs
      | ok q =>
        obtain ⟨d, sc⟩ := q
        rw [validate_success cfg st r p d sc hrl hv hrep hmd] at hs
        simp at hs
        subst hs
        exact make_decision_ok_inv _ _ _ _ hmd

/-- One `validate` call keeps the timestamp dict empty. -/
lemma validate_ts_nil (cfg : Config) (st : St) (r : ReqIn)
    (h : st.replay.ts = []) : ((validate cfg st r).2).replay.ts = [] := by
  cases hrl : (RateLimiter.is_allowed cfg.rate st.rate r.now).1 with
  | false => rw [validate_rl_false cfg st r hrl]; simpa [St.bumpDeny] using h
  | true =>
    cases hv : r.verify with
    | error e =>
      rw [validate_verify_error cfg st r e hrl hv]
      simpa [St.bumpDeny] using h
    | ok vo =>
      cases vo with
      | err s =>
        rw [validate_verify_err cfg st r s hrl hv]
        simpa [St.bumpDeny] using h
      | ok p =>
        cases hrep : (ReplayCache.is_replayed st.replay r.now p.jti).1 with
        | true =>
          rw [validate_replay_true cfg st r p hrl hv hrep]
          simpa [St.bumpDeny, is_replayed_state_nil st.replay r.now p.jti h]
            using h
        | false =>
          cases hmd : DecisionEngine.make_decision cfg.getScore p.sub with
          | error e =>
            rw [validate_score_error cfg st r p e hrl hv hrep hmd]
            simpa [St.bumpDeny, record_ts_none,
              is_replayed_state_nil st.replay r.now p.jti h] using h
          | ok q =>
            obtain ⟨d, sc⟩ := q
            rw [validate_success cfg st r p d sc hrl hv hrep hmd]
            simpa [record_ts_none,
              is_replayed_state_nil st.replay r.now p.jti h] using h

/-- The pipeline never records an expiration, so every reachable state
has an empty timestamp dict. -/
lemma preach_ts_nil (cfg : Config) (st : St) (h : PReach cfg st) :
    st.replay.ts = [] := by
  induction h with
  | init => rfl
  | step st r hst ih => exact validate_ts_nil cfg st r ih

/-- At any reachable state, a request that reaches the replay check with
a jti already in `seen` is denied as a replay. -/
lemma validate_denies_seen (cfg : Config) (st : St) (r : ReqIn) (p : Payload)
    (j : String) (hts : st.replay.ts = []) (hv : r.verify = .ok (.ok p))
    (hj : p.jti = some j)
    (hrl : (RateLimiter.is_allowed cfg.rate st.rate r.now).1 = true)
    (hmem : j ∈ st.replay.seen) :
    (validate cfg st r).1 =
      ⟨Decision.DENY, some DenyReason.REPLAY_DETECTED, none⟩ := by
  have hrep : (ReplayCache.is_replayed st.replay r.now p.jti).1 = true := by
    rw [hj]
    by_cases hje : j = ""
    · subst hje; simp [ReplayCache.is_replayed]
    · rw [is_replayed_fst_nil st.replay r.now j hts hje]; simp [hmem]
  rw [validate_replay_true cfg st r p hrl hv hrep]

/-- One `validate` call never removes a jti from `seen` (given the
pipeline invariant of an empty timestamp dict). -/
lemma validate_seen_mono (cfg : Config) (st : St) (r : ReqIn) (j : String)
    (hts : st.replay.ts = []) (hmem : j ∈ st.replay.seen) :
    j ∈ ((validate cfg st r).2).replay.seen := by
  cases hrl : (RateLimiter.is_allowed cfg.rate st.rate r.now).1 with
  | false => rw [validate_rl_false cfg st r hrl]; simpa [St.bumpDeny] using hmem
  | true =>
    cases hv : r.verify with
    | error e =>
      rw [validate_verify_error cfg st r e hrl hv]
      simpa [St.bumpDeny] using hmem
    | ok vo =>
      cases vo with
      | err s =>
        rw [validate_verify_err cfg st r s hrl hv]
        simpa [St.bumpDeny] using hmem
      | ok p =>
        cases hrep : (ReplayCache.is_replayed st.replay r.now p.jti).1 with
        | true =>
          rw [validate_replay_true cfg st r p hrl hv hrep]
          simpa [St.bumpDeny, is_replayed_state_nil st.replay r.now p.jti hts]
            using hmem
        | false =>
          cases hmd : DecisionEngine.make_decision cfg.getScore p.sub with
          | error e =>
            rw [validate_score_error cfg st r p e hrl hv hrep hmd]
            simp only [St.bumpDeny,
              is_replayed_state_nil st.replay r.now p.jti hts]
            exact record_seen_mono _ _ _ _ hmem
          | ok q =>
            obtain ⟨d, sc⟩ := q
            rw [validate_success cfg st r p d sc hrl hv hrep hmd]
            simp only [is_replayed_state_nil st.replay r.now p.jti hts]
            exact record_seen_mono _ _ _ _ hmem

/-- Per-call characterisation of `seen`: after one `validate` call a jti
is in the set iff it already was, or this very request was admitted past
the replay check carrying it. -/
lemma validate_seen_iff (cfg : Config) (st : St) (r : ReqIn) (j : String)
    (hts : st.replay.ts = []) :
    (j ∈ ((validate cfg st r).2).replay.seen ↔
      (j ∈ st.replay.seen ∨
        ((RateLimiter.is_allowed cfg.rate st.rate r.now).1 = true ∧
         ∃ p, r.verify = .ok (.ok p) ∧ p.jti = some j ∧
           (ReplayCache.is_replayed st.replay r.now p.jti).1 = false))) := by
  cases hrl : (RateLimiter.is_allowed cfg.rate st.rate r.now).1 with
  | false => rw [validate_rl_false cfg st r hrl]; simp [St.bumpDeny]
  | true =>
    cases hv : r.verify with
    | error e =>
      rw [validate_verify_error cfg st r e hrl hv]
      simp [St.bumpDeny, hv]
    | ok vo =>
      cases vo with
      | err s =>
        rw [validate_verify_err cfg st r s hrl hv]
        simp [St.bumpDeny, hv]
      | ok p =>
        cases hrep : (ReplayCache.is_replayed st.replay r.now p.jti).1 with
        | true =>
          rw [validate_replay_true cfg st r p hrl hv hrep]
          simp [St.bumpDeny, hv, hrep,
            is_replayed_state_nil st.replay r.now p.jti hts]
        | false =>
          obtain ⟨j0, hj0, hj0ne⟩ :=
            is_replayed_false_inv st.replay r.now p.jti hrep
          have hrep' :
              (ReplayCache.is_replayed st.replay r.now (some j0)).1 = false := by
            rw [← hj0]; exact hrep
          cases hmd : DecisionEngine.make_decision cfg.getScore p.sub with
          | error e =>
            rw [validate_score_error cfg st r p e hrl hv hrep hmd]
            simp only [St.bumpDeny, hj0,
              is_replayed_state_nil st.replay r.now (some j0) hts]
            rw [record_seen_iff st.replay j0 j hj0ne]
            simp [hv, hrep', hj0]
          | ok q =>
            obtain ⟨d, sc⟩ := q
            rw [validate_success cfg st r p d sc hrl hv hrep hmd]
            simp only [hj0,
              is_replayed_state_nil st.replay r.now (some j0) hts]
            rw [record_seen_iff st.replay j0 j hj0ne]
            simp [hv, hrep', hj0]

/-- C1: `validate` always produces a well-formed response — it is a
total function by construction (the `except Exception` handler of
`app/main.py` catches every abort of the body) — in which the deny
reason is non-null iff the verdict is DENY; and whenever the body of the
`try` block aborts with an uncaught failure (verification, replay,
score or decision step raising), the response is DENY/INTERNAL_ERROR and
`deny_count` is incremented over the state at the raise point. -/
theorem c1_orchestrator_total (cfg : Config) (st : St) (r : ReqIn) :
    ((validate cfg st r).1.reason ≠ none ↔
      (validate cfg st r).1.decision = Decision.DENY) ∧
    (∀ e stE, validateBody cfg st.bumpTotal r = .error (e, stE) →
      (validate cfg st r).1 =
        ⟨Decision.DENY, some DenyReason.INTERNAL_ERROR, none⟩ ∧
      (validate cfg st r).2.metrics.deny_count = stE.metrics.deny_count + 1) := by
  constructor
  · cases hrl : (RateLimiter.is_allowed cfg.rate st.rate r.now).1 with
    | false => rw [validate_rl_false cfg st r hrl]; simp
    | true =>
      cases hv : r.verify with
      | error e => rw [validate_verify_error cfg st r e hrl hv]; simp
      | ok vo =>
        cases vo with
        | err s => rw [validate_verify_err cfg st r s hrl hv]; simp
        | ok p =>
          cases hrep : (ReplayCache.is_replayed st.replay r.now p.jti).1 with
          | true => rw [validate_replay_true cfg st r p hrl hv hrep]; simp
          | false =>
            cases hmd : DecisionEngine.make_decision cfg.getScore p.sub with
            | error e =>
              rw [validate_score_error cfg st r p e hrl hv hrep hmd]; simp
            | ok q =>
              obtain ⟨d, sc⟩ := q
              rw [validate_success cfg st r p d sc hrl hv hrep hmd]
              by_cases hd : d = Decision.DENY <;> simp [hd]
  · intro e stE hb
    unfold validate
    rw [hb]
    simp [St.bumpDeny]

/-- C1 witness: a concrete request whose validator call raises yields
DENY/INTERNAL_ERROR and bumps `deny_count` from 0 to 1. -/
theorem c1_witness :
    (validate ⟨5/3, fun _ => Except.ok 95⟩ St0 ⟨0, .error "RuntimeError"⟩).1 =
      ⟨Decision.DENY, some DenyReason.INTERNAL_ERROR, none⟩ ∧
    (validate ⟨5/3, fun _ => Except.ok 95⟩ St0
        ⟨0, .error "RuntimeError"⟩).2.metrics.deny_count = 0 + 1 := by
  exact (c1_orchestrator_total ⟨5/3, fun _ => Except.ok 95⟩ St0
      ⟨0, .error "RuntimeError"⟩).2 "RuntimeError"
    ⟨⟨1, 0, 0, 0, 0, 0⟩, some (119, 0), ⟨[], []⟩⟩
    (by
      unfold validateBody
      simp [St.bumpTotal, St0, RateLimiter.is_allowed]
      norm_num)

/-- C2: the score in any response is a function of the verified
payload's `sub` claim and the score backend only.  Two requests whose
credentials verify to payloads with the same `sub` — whatever their
other claims, including a claim named `score` — and that both produce a
scored response, produce the same score, from any two states. -/
theorem c2_score_payload_independent (cfg : Config) (st1 st2 : St)
    (r1 r2 : ReqIn) (p1 p2 : Payload) (s1 s2 : Int)
    (h1 : r1.verify = .ok (.ok p1)) (h2 : r2.verify = .ok (.ok p2))
    (hsub : p1.sub = p2.sub)
    (hs1 : (validate cfg st1 r1).1.score = some s1)
    (hs2 : (validate cfg st2 r2).1.score = some s2) :
    s1 = s2 := by
  have g1 := validate_score_origin cfg st1 r1 p1 s1 h1 hs1
  have g2 := validate_score_origin cfg st2 r2 p2 s2 h2 hs2
  rw [hsub] at g1
  rw [g1] at g2
  exact (Except.ok.injEq _ _ ▸ g2)

/-- C2 witness: two credentials with `sub = "high_user"` but different
jti, exp, nbf, extra claims and an embedded `score` claim of 99/100 both
yield the backend score 95. -/
theorem c2_witness :
    (validate ⟨5/3, fun u => Except.ok (if u = some "high_user" then 95 else 5)⟩
      St0 ⟨0, .ok (.ok ⟨some "high_user", some "jA", some 1000, none, some 99,
        [("score", "100")]⟩)⟩).1.score = some 95 ∧
    (validate ⟨5/3, fun u => Except.ok (if u = some "high_user" then 95 else 5)⟩
      St0 ⟨7, .ok (.ok ⟨some "high_user", some "jB", some 2000, some 5, none,
        []⟩)⟩).1.score = some 95 ∧
    (95 : Int) = 95 := by
  have hA : (validate ⟨5/3, fun u => Except.ok (if u = some "high_user" then 95 else 5)⟩
      St0 ⟨0, .ok (.ok ⟨some "high_user", some "jA", some 1000, none, some 99,
        [("score", "100")]⟩)⟩).1.score = some 95 := by
    simp [validate, validateBody, St0, St.bumpTotal, St.bumpDeny,
      RateLimiter.is_allowed, ReplayCache.is_replayed, ReplayCache.cleanup,
      ReplayCache.record, DecisionEngine.make_decision,
      DecisionEngine.ALLOW_THRESHOLD]
  have hB : (validate ⟨5/3, fun u => Except.ok (if u = some "high_user" then 95 else 5)⟩
      St0 ⟨7, .ok (.ok ⟨some "high_user", some "jB", some 2000, some 5, none,
        []⟩)⟩).1.score = some 95 := by
    simp [validate, validateBody, St0, St.bumpTotal, St.bumpDeny,
      RateLimiter.is_allowed, ReplayCache.is_replayed, ReplayCache.cleanup,
      ReplayCache.record, DecisionEngine.make_decision,
      DecisionEngine.ALLOW_THRESHOLD]
  exact ⟨hA, hB,
    c2_score_payload_independent _ St0 St0 _ _
      ⟨some "high_user", some "jA", some 1000, none, some 99, [("score", "100")]⟩
      ⟨some "high_user", some "jB", some 2000, some 5, none, []⟩
      95 95 rfl rfl rfl hA hB⟩

/-- C3: for every integer score the decision engine returns the score
unchanged together with a verdict satisfying exactly
ALLOW ↔ score ≥ 70, MONITOR ↔ 50 ≤ score < 70, DENY ↔ score < 50,
with both thresholds inclusive at the lower bound. -/
theorem c3_decision_thresholds (s : Int) (uid : Option String) :
    ∃ d : Decision,
      DecisionEngine.make_decision (fun _ => Except.ok s) uid = .ok (d, s) ∧
      (d = Decision.ALLOW ↔ 70 ≤ s) ∧
      (d = Decision.MONITOR ↔ 50 ≤ s ∧ s < 70) ∧
      (d = Decision.DENY ↔ s < 50) := by
  simp only [DecisionEngine.make_decision, DecisionEngine.ALLOW_THRESHOLD,
    DecisionEngine.MONITOR_THRESHOLD]
  split_ifs with h1 h2
  · exact ⟨Decision.ALLOW, rfl, by simp; omega, by simp; omega, by simp; omega⟩
  · exact ⟨Decision.MONITOR, rfl, by simp; omega, by simp; omega, by simp; omega⟩
  · exact ⟨Decision.DENY, rfl, by simp; omega, by simp; omega, by simp; omega⟩

/-- C4: at every pipeline-reachable state, (i) the process starts with an
empty seen set, (ii) a request that passes rate limiting and
verification with a jti already in the seen set is denied
DENY/REPLAY_DETECTED (pipeline entries are never purged, so this holds
at every reachable state), and (iii) after any request a jti is in the
seen set iff it already was or that request was admitted past the replay
check carrying it — i.e. the set contains exactly the jtis admitted past
the replay check in the current process. -/
theorem c4_replay_suppression (cfg : Config) (st : St) (hst : PReach cfg st) :
    St0.replay.seen = [] ∧
    (∀ r p j, r.verify = .ok (.ok p) → p.jti = some j →
      (RateLimiter.is_allowed cfg.rate st.rate r.now).1 = true →
      j ∈ st.replay.seen →
      (validate cfg st r).1 =
        ⟨Decision.DENY, some DenyReason.REPLAY_DETECTED, none⟩) ∧
    (∀ r j, j ∈ ((validate cfg st r).2).replay.seen ↔
      (j ∈ st.replay.seen ∨
        ((RateLimiter.is_allowed cfg.rate st.rate r.now).1 = true ∧
         ∃ p, r.verify = .ok (.ok p) ∧ p.jti = some j ∧
           (ReplayCache.is_replayed st.replay r.now p.jti).1 = false))) := by
  have hts := preach_ts_nil cfg st hst
  refine ⟨rfl, ?_, ?_⟩
  · intro r p j hv hj hrl hmem
    exact validate_denies_seen cfg st r p j hts hv hj hrl hmem
  · intro r j
    exact validate_seen_iff cfg st r j hts

/-- C4 witness: presenting the credential with jti "j1" a second time,
from the state reached by its first (admitted) presentation, is denied
DENY/REPLAY_DETECTED. -/
theorem c4_witness :
    (validate cfgW4 (validate cfgW4 St0 rW4a).2 rW4b).1 =
      ⟨Decision.DENY, some DenyReason.REPLAY_DETECTED, none⟩ := by
  have hstW : (validate cfgW4 St0 rW4a).2 =
      ⟨⟨1, 1, 0, 0, 0, 0⟩, some (119, 0), ⟨["j1"], []⟩⟩ := by
    simp [validate, validateBody, St0, St.bumpTotal, St.bumpDeny, cfgW4, rW4a,
      pW4, RateLimiter.is_allowed, ReplayCache.is_replayed, ReplayCache.cleanup,
      ReplayCache.record, DecisionEngine.make_decision,
      DecisionEngine.ALLOW_THRESHOLD]
    norm_num
  have hrl2 : (RateLimiter.is_allowed cfgW4.rate
      ((validate cfgW4 St0 rW4a).2).rate rW4b.now).1 = true := by
    rw [hstW]
    simp [cfgW4, rW4b, RateLimiter.is_allowed, min_def]
    norm_num
  have hmem : "j1" ∈ ((validate cfgW4 St0 rW4a).2).replay.seen := by
    rw [hstW]
    simp
  exact (c4_replay_suppression cfgW4 (validate cfgW4 St0 rW4a).2
      (PReach.step St0 rW4a PReach.init)).2.1 rW4b pW4 "j1" rfl rfl hrl2 hmem

/-- C5: for a signature-valid, non-empty credential the temporal checks
are, in order: absent `exp` yields the malformed error; `now` beyond
`exp + clock_drift` yields the expired error; a present `nbf` with `now`
before `nbf - clock_drift` yields the not-yet-valid error; and any
credential with `now ∈ [exp - clock_drift, exp + clock_drift]` passes
the expiry check (its result is never the expired error). -/
theorem c5_temporal_checks (drift : Int) (p : Payload) (now : Int) :
    (p.exp = none →
      JWTValidator.validate_token drift false (.ok p) now = .err "malformed") ∧
    (∀ e, p.exp = some e → e + drift < now →
      JWTValidator.validate_token drift false (.ok p) now = .err "expired") ∧
    (∀ e b, p.exp = some e → now ≤ e + drift → p.nbf = some b →
      now < b - drift →
      JWTValidator.validate_token drift false (.ok p) now = .err "not_yet_valid") ∧
    (∀ e, p.exp = some e → e - drift ≤ now → now ≤ e + drift →
      JWTValidator.validate_token drift false (.ok p) now ≠ .err "expired") := by
  unfold JWTValidator.validate_token
  refine ⟨?_, ?_, ?_, ?_⟩
  · intro h; simp [h]
  · intro e he hlt; simp [he]; omega
  · intro e b he hle hb hlt
    simp [he, hb]
    rw [if_neg (by omega), if_pos hlt]
  · intro e he h1 h2
    simp [he]
    refine ⟨by omega, ?_⟩
    split <;> split_ifs <;> simp

/-- C5 witness: with drift 30, a credential expired 31 seconds ago is
expired; one with `nbf` 70 seconds ahead of the widened window is not
yet valid; one 20 seconds past `exp` (inside the drift window) is not
flagged expired. -/
theorem c5_witness :
    JWTValidator.validate_token 30 false
      (.ok ⟨some "u", some "j", some 100, none, none, []⟩) 131 =
      .err "expired" ∧
    JWTValidator.validate_token 30 false
      (.ok ⟨some "u", some "j", some 1000, some 500, none, []⟩) 400 =
      .err "not_yet_valid" ∧
    JWTValidator.validate_token 30 false
      (.ok ⟨some "u", some "j", some 100, none, none, []⟩) 120 ≠
      .err "expired" := by
  refine ⟨?_, ?_, ?_⟩
  · exact (c5_temporal_checks 30 _ 131).2.1 100 rfl (by decide)
  · exact (c5_temporal_checks 30 _ 400).2.2.1 1000 500 rfl (by decide) rfl
      (by decide)
  · exact (c5_temporal_checks 30 _ 120).2.2.2 100 rfl (by decide) (by decide)

/-- C6 counterexample: the claim says any out-of-range backend value
yields 0, but the code has no range check — a database backend holding
150 makes `get_score` return 150, outside [0, 100]. -/
theorem c6_counterexample :
    TrustedScoreProvider.get_score "database"
      ⟨fun _ => .ok (some 150), fun _ => .ok none, fun _ _ => .ok ()⟩
      (fun _ => .ok none) "u" = 150 ∧ ¬((150 : Int) ≤ 100) :=
  ⟨rfl, by decide⟩

/-- C6 amended: `get_score` returns 0 on every error path, absent
record, and unrecognized backend type; and its result lies in [0, 100]
whenever every value the backends produce does (backend values are
passed through without a range check). -/
theorem c6_amended (repo : ScoreRepo) (api : String → Except String (Option Int))
    (ptype uid : String) :
    (ptype ≠ "database" → ptype ≠ "redis" → ptype ≠ "external_api" →
      TrustedScoreProvider.get_score ptype repo api uid = 0) ∧
    (∀ e, repo.get_score uid = .error e →
      TrustedScoreProvider.get_score "database" repo api uid = 0) ∧
    (repo.get_score uid = .ok none →
      TrustedScoreProvider.get_score "database" repo api uid = 0) ∧
    (∀ e, api uid = .error e →
      TrustedScoreProvider.get_score "external_api" repo api uid = 0) ∧
    (api uid = .ok none →
      TrustedScoreProvider.get_score "external_api" repo api uid = 0) ∧
    ((∀ u v, repo.get_score u = .ok (some v) → 0 ≤ v ∧ v ≤ 100) →
     (∀ u v, repo.get_cached_score u = .ok (some v) → 0 ≤ v ∧ v ≤ 100) →
     (∀ u v, api u = .ok (some v) → 0 ≤ v ∧ v ≤ 100) →
     0 ≤ TrustedScoreProvider.get_score ptype repo api uid ∧
       TrustedScoreProvider.get_score ptype repo api uid ≤ 100) := by
  refine ⟨?_, ?_, ?_, ?_, ?_, ?_⟩
  · intro h1 h2 h3
    simp [TrustedScoreProvider.get_score, h1, h2, h3]
  · intro e h
    simp [TrustedScoreProvider.get_score, TrustedScoreProvider.get_from_database, h]
  · intro h
    simp [TrustedScoreProvider.get_score, TrustedScoreProvider.get_from_database, h]
  · intro e h
    simp [TrustedScoreProvider.get_score, TrustedScoreProvider.get_from_api, h]
  · intro h
    simp [TrustedScoreProvider.get_score, TrustedScoreProvider.get_from_api, h]
  · intro hdb hcache hapi
    unfold TrustedScoreProvider.get_score
    split_ifs with h1 h2 h3
    · unfold TrustedScoreProvider.get_from_database
      cases hg : repo.get_score uid with
      | error e => simp
      | ok s =>
        cases s with
        | none => simp
        | some v => simpa using hdb uid v hg
    · unfold TrustedScoreProvider.get_from_redis
      cases hc : repo.get_cached_score uid with
      | error e => simp
      | ok c =>
        cases c with
        | some v => simpa using hcache uid v hc
        | none =>
          cases hg : repo.get_score uid with
          | error e => simp
          | ok s =>
            cases s with
            | none => simp
            | some v =>
              cases hw : repo.cache_score uid v with
              | error e => simp [hw]
              | ok _ => simp [hw]; simpa using hdb uid v hg
    · unfold TrustedScoreProvider.get_from_api
      cases ha : api uid with
      | error e => simp
      | ok d =>
        cases d with
        | none => simp
        | some v => simpa using hapi uid v ha
    · simp

/-- C6 witness: an unrecognized backend type yields 0; a raising
database backend yields 0; an in-range backend keeps the result in
[0, 100]. -/
theorem c6_witness :
    TrustedScoreProvider.get_score "carrier_pigeon"
      ⟨fun _ => .ok (some 42), fun _ => .ok none, fun _ _ => .ok ()⟩
      (fun _ => .ok none) "u" = 0 ∧
    TrustedScoreProvider.get_score "database"
      ⟨fun _ => .error "db down", fun _ => .ok none, fun _ _ => .ok ()⟩
      (fun _ => .ok none) "u" = 0 ∧
    (0 ≤ TrustedScoreProvider.get_score "redis"
      ⟨fun _ => .ok (some 42), fun _ => .ok none, fun _ _ => .ok ()⟩
      (fun _ => .ok none) "u" ∧
     TrustedScoreProvider.get_score "redis"
      ⟨fun _ => .ok (some 42), fun _ => .ok none, fun _ _ => .ok ()⟩
      (fun _ => .ok none) "u" ≤ 100) := by
  refine ⟨?_, ?_, ?_⟩
  · exact (c6_amended _ _ "carrier_pigeon" "u").1 (by decide) (by decide)
      (by decide)
  · exact (c6_amended ⟨fun _ => .error "db down", fun _ => .ok none,
      fun _ _ => .ok ()⟩ (fun _ => .ok none) "database" "u").2.1 "db down" rfl
  · exact (c6_amended ⟨fun _ => .ok (some 42), fun _ => .ok none,
      fun _ _ => .ok ()⟩ (fun _ => .ok none) "redis" "u").2.2.2.2.2
      (by intro u v h; injection h with h'; injection h' with h''; omega)
      (by intro u v h; injection h with h'; cases h')
      (by intro u v h; injection h with h'; cases h')

/-- C7 counterexample: the claim says an empty `sub` or `jti` string
yields the malformed error, but the code only tests key presence — a
temporally valid credential whose `sub` and `jti` are present but empty
is returned as a success payload, not as malformed. -/
theorem c7_counterexample :
    JWTValidator.validate_token 30 false
      (.ok ⟨some "", some "", some 100, none, none, []⟩) 0 =
      .ok ⟨some "", some "", some 100, none, none, []⟩ ∧
    JWTValidator.validate_token 30 false
      (.ok ⟨some "", some "", some 100, none, none, []⟩) 0 ≠
      .err "malformed" :=
  ⟨by decide, by decide⟩

/-- C7 amended: for credentials that pass signature and temporal checks
the verifier returns the malformed error whenever the `sub` key or the
`jti` key is absent; equivalently a success payload always has `sub` and
`jti` present — though their values may be empty strings, which are not
rejected. -/
theorem c7_amended (drift : Int) (p : Payload) (now : Int) :
    (∀ e, p.exp = some e → now ≤ e + drift →
      (∀ b, p.nbf = some b → b - drift ≤ now) →
      (p.jti = none ∨ p.sub = none) →
      JWTValidator.validate_token drift false (.ok p) now = .err "malformed") ∧
    (∀ tE sig q, JWTValidator.validate_token drift tE sig now = .ok q →
      q.sub.isSome ∧ q.jti.isSome ∧ sig = .ok q) := by
  constructor
  · intro e he hle hnbf hmiss
    unfold JWTValidator.validate_token
    simp [he]
    rw [if_neg (by omega)]
    cases hb : p.nbf with
    | none => simp [hb, hmiss]
    | some b =>
      have := hnbf b hb
      simp [hb]
      rw [if_neg (by omega), if_pos hmiss]
  · intro tE sig q h
    cases tE with
    | true => simp [JWTValidator.validate_token] at h
    | false =>
      cases sig with
      | expiredSig => simp [JWTValidator.validate_token] at h
      | invalidSig => simp [JWTValidator.validate_token] at h
      | decodeErr => simp [JWTValidator.validate_token] at h
      | otherExc => simp [JWTValidator.validate_token] at h
      | ok p' =>
        cases hexp : p'.exp with
        | none => simp [JWTValidator.validate_token, hexp] at h
        | some e =>
          simp [JWTValidator.validate_token, hexp] at h
          split_ifs at h with h1 h2 h3
          all_goals simp_all
          all_goals
            obtain ⟨rfl⟩ := h
            push_neg at *
            simp_all [Option.isSome_iff_ne_none]

/-- C7 witness: a credential missing `sub` is malformed; a success
payload has both `sub` and `jti` present. -/
theorem c7_witness :
    JWTValidator.validate_token 30 false
      (.ok ⟨none, some "j", some 100, none, none, []⟩) 0 = .err "malformed" ∧
    ((⟨some "u", some "j", some 100, none, none, []⟩ : Payload).sub.isSome ∧
     (⟨some "u", some "j", some 100, none, none, []⟩ : Payload).jti.isSome ∧
     SigOutcome.ok ⟨some "u", some "j", some 100, none, none, []⟩ =
       .ok ⟨some "u", some "j", some 100, none, none, []⟩) := by
  constructor
  · exact (c7_amended 30 _ 0).1 100 rfl (by decide) (by intro b hb; cases hb)
      (Or.inr rfl)
  · exact (c7_amended 30 ⟨none, none, none, none, none, []⟩ 0).2 false
      (.ok ⟨some "u", some "j", some 100, none, none, []⟩) _ (by decide)

/-- C8 amended: provided the refill rate is non-negative and the clock
never regresses across calls (each call's `now` is at least the stored
`last_update`), every reachable bucket state keeps tokens in
[0, 120] (the hardcoded burst capacity), and each call moves
`last_update` forward.  Under clock regression the invariant fails; see
the counterexample. -/
theorem c8_amended (rate : ℚ) (hr : 0 ≤ rate) :
    (∀ st, RateLimiter.Reach rate st → ∀ tok lu, st = some (tok, lu) →
      0 ≤ tok ∧ tok ≤ 120) ∧
    (∀ tok lu now tok' lu', lu ≤ now →
      (RateLimiter.is_allowed rate (some (tok, lu)) now).2 = some (tok', lu') →
      lu ≤ lu') := by
  constructor
  · intro st h
    induction h with
    | init => intro tok lu h; cases h
    | step st now hst htime ih =>
      intro tok lu heq
      cases st with
      | none =>
        simp only [RateLimiter.is_allowed, Option.some.injEq,
          Prod.mk.injEq] at heq
        obtain ⟨h1, h2⟩ := heq
        constructor <;> rw [← h1] <;> norm_num
      | some q =>
        obtain ⟨t0, l0⟩ := q
        have hinv := ih t0 l0 rfl
        have hle := htime t0 l0 rfl
        have hrefill : (0:ℚ) ≤ (now - l0) * rate :=
          mul_nonneg (by linarith) hr
        have hmin0 : 0 ≤ min (120:ℚ) (t0 + (now - l0) * rate) :=
          le_min (by norm_num) (by linarith [hinv.1])
        have hmin120 : min (120:ℚ) (t0 + (now - l0) * rate) ≤ 120 :=
          min_le_left _ _
        simp only [RateLimiter.is_allowed] at heq
        split_ifs at heq with hlt
        · simp only [Option.some.injEq, Prod.mk.injEq] at heq
          obtain ⟨h1, h2⟩ := heq
          exact ⟨by rw [← h1]; exact hmin0, by rw [← h1]; exact hmin120⟩
        · simp only [Option.some.injEq, Prod.mk.injEq] at heq
          obtain ⟨h1, h2⟩ := heq
          rw [not_lt] at hlt
          exact ⟨by rw [← h1]; linarith, by rw [← h1]; linarith⟩
  · intro tok lu now tok' lu' hle heq
    simp only [RateLimiter.is_allowed] at heq
    split_ifs at heq <;>
      simp only [Option.some.injEq, Prod.mk.injEq] at heq <;>
      rw [← heq.2] <;> exact hle

/-- C8 witness: the state reached by one admit call at time 7 with rate
100 rpm holds 119 tokens, inside [0, 120]. -/
theorem c8_witness : (0:ℚ) ≤ 119 ∧ (119:ℚ) ≤ 120 := by
  have h2 : (RateLimiter.is_allowed (5/3) none 7).2 = some (119, 7) := by
    simp [RateLimiter.is_allowed]
    norm_num
  have hreach : RateLimiter.Reach (5/3) (some (119, 7)) := by
    rw [← h2]
    exact RateLimiter.Reach.step none 7 RateLimiter.Reach.init
      (by intro tok lu h; cases h)
  exact (c8_amended (5/3) (by norm_num)).1 _ hreach 119 7 rfl

/-- C8 counterexample: the claim as stated fails under clock regression.
After an admit call at time 100 the bucket is (119, 100); a second call
with the clock regressed to 0 stores tokens −143/3 < 0 (violating
tokens ∈ [0, burst]) and rewrites `last_update` from 100 down to 0
(violating its monotonicity). -/
theorem c8_counterexample :
    (RateLimiter.is_allowed (5/3) none 100).2 = some (119, 100) ∧
    (RateLimiter.is_allowed (5/3) (some (119, 100)) 0).2 = some (-(143/3), 0) ∧
    (-(143/3) : ℚ) < 0 ∧ ((0:ℚ) < 100) := by
  refine ⟨?_, ?_, by norm_num, by norm_num⟩
  · simp [RateLimiter.is_allowed]; norm_num
  · simp [RateLimiter.is_allowed, min_def]; norm_num

/-- C9: contrary to the claim (and spec §4.7), `validate_token` never
touches `rate_limit_hits` or `replay_detections`: across every request
both counters are unchanged, while a rate-limited request increments
only `deny_count` (second conjunct, at a concrete exhausted bucket) and
a replayed request likewise increments only `deny_count` (third
conjunct, at a concrete seen jti). -/
theorem c9_counters_never_incremented :
    (∀ cfg st r,
      ((validate cfg st r).2).metrics.rate_limit_hits =
        st.metrics.rate_limit_hits ∧
      ((validate cfg st r).2).metrics.replay_detections =
        st.metrics.replay_detections) ∧
    ((validate ⟨5/3, fun _ => Except.ok 95⟩
        ⟨⟨0, 0, 0, 0, 0, 0⟩, some (0, 100), ⟨[], []⟩⟩ ⟨100, .ok (.err "x")⟩).1 =
      ⟨Decision.DENY, some DenyReason.RATE_LIMIT_EXCEEDED, none⟩ ∧
     (validate ⟨5/3, fun _ => Except.ok 95⟩
        ⟨⟨0, 0, 0, 0, 0, 0⟩, some (0, 100), ⟨[], []⟩⟩
        ⟨100, .ok (.err "x")⟩).2.metrics.deny_count = 1 ∧
     (validate ⟨5/3, fun _ => Except.ok 95⟩
        ⟨⟨0, 0, 0, 0, 0, 0⟩, some (0, 100), ⟨[], []⟩⟩
        ⟨100, .ok (.err "x")⟩).2.metrics.rate_limit_hits = 0) ∧
    ((validate ⟨5/3, fun _ => Except.ok 95⟩
        ⟨⟨0, 0, 0, 0, 0, 0⟩, none, ⟨["jx"], []⟩⟩
        ⟨0, .ok (.ok ⟨some "u", some "jx", some 1000, none, none, []⟩)⟩).1 =
      ⟨Decision.DENY, some DenyReason.REPLAY_DETECTED, none⟩ ∧
     (validate ⟨5/3, fun _ => Except.ok 95⟩
        ⟨⟨0, 0, 0, 0, 0, 0⟩, none, ⟨["jx"], []⟩⟩
        ⟨0, .ok (.ok ⟨some "u", some "jx", some 1000, none, none,
          []⟩)⟩).2.metrics.deny_count = 1 ∧
     (validate ⟨5/3, fun _ => Except.ok 95⟩
        ⟨⟨0, 0, 0, 0, 0, 0⟩, none, ⟨["jx"], []⟩⟩
        ⟨0, .ok (.ok ⟨some "u", some "jx", some 1000, none, none,
          []⟩)⟩).2.metrics.replay_detections = 0) := by
  refine ⟨?_, ?_, ?_⟩
  · intro cfg st r
    cases hrl : (RateLimiter.is_allowed cfg.rate st.rate r.now).1 with
    | false =>
      rw [validate_rl_false cfg st r hrl]
      simp [St.bumpDeny, St.bumpTotal]
    | true =>
      cases hv : r.verify with
      | error e =>
        rw [validate_verify_error cfg st r e hrl hv]
        simp [St.bumpDeny, St.bumpTotal]
      | ok vo =>
        cases vo with
        | err s =>
          rw [validate_verify_err cfg st r s hrl hv]
          simp [St.bumpDeny, St.bumpTotal]
        | ok p =>
          cases hrep : (ReplayCache.is_replayed st.replay r.now p.jti).1 with
          | true =>
            rw [validate_replay_true cfg st r p hrl hv hrep]
            simp [St.bumpDeny, St.bumpTotal]
          | false =>
            cases hmd : DecisionEngine.make_decision cfg.getScore p.sub with
            | error e =>
              rw [validate_score_error cfg st r p e hrl hv hrep hmd]
              simp [St.bumpDeny, St.bumpTotal]
            | ok q =>
              obtain ⟨d, sc⟩ := q
              rw [validate_success cfg st r p d sc hrl hv hrep hmd]
              split_ifs <;> simp [St.bumpTotal]
  · refine ⟨?_, ?_, ?_⟩ <;>
      simp [validate, validateBody, St.bumpTotal, St.bumpDeny,
        RateLimiter.is_allowed]
  · refine ⟨?_, ?_, ?_⟩ <;>
      simp [validate, validateBody, St.bumpTotal, St.bumpDeny,
        RateLimiter.is_allowed, ReplayCache.is_replayed, ReplayCache.cleanup]

/-- C10: (i) every pipeline-reachable state has an empty replay
timestamp dict, because the pipeline calls `record` with no `exp`;
(ii) `record` without `exp` associates no expiration; (iii) cleanup
removes only jtis that appear in the timestamp dict; hence (iv) a
recorded jti stays in `seen` across any further request — the `ReplayCache`
of the source enforces no maximum size, so nothing else can evict it —
and (v) it is denied as a replay on every later presentation that
reaches the replay check, even after any amount of time has passed. -/
theorem c10_replay_persistence (cfg : Config) (st : St) (hst : PReach cfg st) :
    st.replay.ts = [] ∧
    (∀ rs jti, (ReplayCache.record rs jti none).ts = rs.ts) ∧
    (∀ rs t j, j ∈ rs.seen → (∀ e, (j, e) ∉ rs.ts) →
      j ∈ (ReplayCache.cleanup rs t).seen) ∧
    (∀ j r, j ∈ st.replay.seen → j ∈ ((validate cfg st r).2).replay.seen) ∧
    (∀ j r p, j ∈ st.replay.seen → r.verify = .ok (.ok p) → p.jti = some j →
      (RateLimiter.is_allowed cfg.rate st.rate r.now).1 = true →
      (validate cfg st r).1.decision = Decision.DENY ∧
      (validate cfg st r).1.reason = some DenyReason.REPLAY_DETECTED) := by
  have hts := preach_ts_nil cfg st hst
  refine ⟨hts, record_ts_none, ?_, ?_, ?_⟩
  · intro rs t j hmem hun
    exact cleanup_keeps_unstamped rs t j hmem hun
  · intro j r hmem
    exact validate_seen_mono cfg st r j hts hmem
  · intro j r p hmem hv hj hrl
    rw [validate_denies_seen cfg st r p j hts hv hj hrl hmem]
    exact ⟨rfl, rfl⟩

/-- C10 witness: the jti "j9" recorded by an admitted first request is
still in the seen set after a later request whose validator raises. -/
theorem c10_witness :
    "j9" ∈ ((validate cfgW10 (validate cfgW10 St0 rW10a).2 rW10b).2).replay.seen := by
  have hstW : (validate cfgW10 St0 rW10a).2 =
      ⟨⟨1, 0, 1, 0, 0, 0⟩, some (119, 0), ⟨["j9"], []⟩⟩ := by
    simp [validate, validateBody, St0, St.bumpTotal, St.bumpDeny, cfgW10, rW10a,
      pW10, RateLimiter.is_allowed, ReplayCache.is_replayed, ReplayCache.cleanup,
      ReplayCache.record, DecisionEngine.make_decision,
      DecisionEngine.ALLOW_THRESHOLD, DecisionEngine.MONITOR_THRESHOLD]
    norm_num
  have hmem : "j9" ∈ ((validate cfgW10 St0 rW10a).2).replay.seen := by
    rw [hstW]
    simp
  exact (c10_replay_persistence cfgW10 (validate cfgW10 St0 rW10a).2
      (PReach.step St0 rW10a PReach.init)).2.2.2.1 "j9" rW10b hmem
